import Mathlib

/-!
Verification development for the book inventory manager
(src/inventory_manager.py).  The record store is a SQLite table with
`id INTEGER PRIMARY KEY`; we embed it as a list of rows.  Each database
primitive of class `BookDatabase` issues its own `conn.commit()`, a fact
that matters for the identifier-change path, and is modelled explicitly
below.  Timestamps (`datetime.now().isoformat()`) are abstracted as a
`Nat` parameter supplied to every mutating call.  Python `float` prices
are embedded as `Rat`; the code only stores and compares them.
-/

/-- One row of the `books` table (see `BookDatabase._setup` and
`BookDatabase._row_to_dict`): id, title, author, quantity, price,
date_added (creation timestamp), last_updated. -/
structure Book where
  id : Int
  title : String
  author : String
  quantity : Int
  price : Rat
  date_added : Nat
  last_updated : Nat
deriving DecidableEq, Repr

/-- The live rows of the `books` table. -/
abbrev Store := List Book

/-- Python `str.lower()` as used by the duplicate checks and the `x`
sentinel tests: character-wise ASCII lowering.  (Defined over the
character list so that concrete instances reduce inside the kernel.) -/
def py_lower (s : String) : String :=
  ⟨s.data.map Char.toLower⟩

/-- Python `str.strip()` as used on text inputs: drop whitespace from both
ends.  (Defined over the character list so that concrete instances reduce
inside the kernel.) -/
def py_strip (s : String) : String :=
  ⟨((s.data.dropWhile Char.isWhitespace).reverse.dropWhile
    Char.isWhitespace).reverse⟩

/-- The field values supplied to `BookDatabase.add_book` (the `data` /
`new_book` dictionary: id, title, author, quantity, price; timestamps
are stamped by `add_book` itself). -/
structure NewBook where
  id : Int
  title : String
  author : String
  quantity : Int
  price : Rat
deriving DecidableEq, Repr

/-- The `updates` dictionary staged by `BookManager._process_update_choice`:
each key is present (`some`) exactly when that field was staged. -/
structure Updates where
  id : Option Int := none
  title : Option String := none
  author : Option String := none
  quantity : Option Int := none
  price : Option Rat := none
deriving DecidableEq, Repr

/-- `BookDatabase.get_book`: `SELECT * FROM books WHERE id = ?` and
`fetchone`, i.e. the first row with the given id. -/
def get_book (s : Store) (i : Int) : Option Book :=
  s.find? (fun b => b.id == i)

/-- `BookDatabase.add_book`: INSERT of a full row with both timestamps set
to now, followed by `conn.commit()` inside the method itself.  The insert
raises `sqlite3.Error` on a PRIMARY KEY clash (id already present) or on a
lower-level fault (modelled by the `fault` flag); the method catches the
error and returns False with nothing inserted.  On success the row is
committed immediately. -/
def add_book (s : Store) (d : NewBook) (t : Nat) (fault : Bool) : Bool × Store :=
  if fault then (false, s)
  else if s.any (fun b => b.id == d.id) then (false, s)
  else (true, s ++ [⟨d.id, d.title, d.author, d.quantity, d.price, t, t⟩])

/-- `BookDatabase.delete_book`: `DELETE FROM books WHERE id = ?`, then
`conn.commit()`; returns `rowcount > 0`. -/
def delete_book (s : Store) (i : Int) : Bool × Store :=
  (s.any (fun b => b.id == i), s.filter (fun b => !(b.id == i)))

/-- The effect of the SET clause built by `BookDatabase.update_book` on one
row: overwrite exactly the supplied fields and refresh `last_updated`.
`_apply_updates` routes any staged id change to its own insert-then-delete
path, so the dictionary reaching `update_book` never carries an `id` key;
the SET clause therefore touches only title/author/quantity/price. -/
def apply_fields (b : Book) (u : Updates) (t : Nat) : Book :=
  { b with
    title := u.title.getD b.title,
    author := u.author.getD b.author,
    quantity := u.quantity.getD b.quantity,
    price := u.price.getD b.price,
    last_updated := t }

/-- `BookDatabase.update_book`: builds `UPDATE books SET k1 = ?, ...,
last_updated = ? WHERE id = ?` and returns `rowcount > 0` after
`conn.commit()`.  With an empty dictionary the generated SQL is malformed
(`SET , last_updated = ?`), so `sqlite3.Error` is caught and False is
returned with the store untouched. -/
def update_book_db (s : Store) (i : Int) (u : Updates) (t : Nat) : Bool × Store :=
  if u = {} then (false, s)
  else (s.any (fun b => b.id == i),
        s.map (fun b => if b.id == i then apply_fields b u t else b))

/-- `BookDatabase.is_duplicate_title_author`: case-insensitive match on
`(title, author)`; the excluding clause `AND id != ?` is appended only when
`exclude_id` is truthy in Python, i.e. not None and not 0. -/
def is_duplicate_title_author (s : Store) (title author : String)
    (exclude_id : Option Int) : Bool :=
  match exclude_id with
  | some e =>
    if e ≠ 0 then
      s.any (fun b => py_lower b.title == py_lower title &&
        py_lower b.author == py_lower author && b.id != e)
    else
      s.any (fun b => py_lower b.title == py_lower title &&
        py_lower b.author == py_lower author)
  | none =>
    s.any (fun b => py_lower b.title == py_lower title &&
      py_lower b.author == py_lower author)

/-- Filters accepted by `BookDatabase.search_books` keyword arguments. -/
structure SearchFilters where
  title : Option String := none
  author : Option String := none
  id : Option Int := none
  max_price : Option Rat := none
  min_price : Option Rat := none
  min_stock : Option Int := none
deriving DecidableEq, Repr

/-- SQL `LIKE '%v%'` matching used by `search_books` for title and author:
case-insensitive substring containment. -/
def like_contains (hay pat : String) : Bool :=
  let h := py_lower hay
  let p := py_lower pat
  p.isEmpty || (h.splitOn p).length ≥ 2

/-- `BookDatabase.search_books`: conjunction of the conditions generated
for the provided filters; with no filters there is no WHERE clause and the
whole table is returned. -/
def search_books (s : Store) (f : SearchFilters) : Store :=
  s.filter (fun b =>
    (match f.title with | some v => like_contains b.title v | none => true) &&
    (match f.author with | some v => like_contains b.author v | none => true) &&
    (match f.id with | some v => b.id == v | none => true) &&
    (match f.max_price with | some v => decide (b.price ≤ v) | none => true) &&
    (match f.min_price with | some v => decide (v ≤ b.price) | none => true) &&
    (match f.min_stock with | some v => decide (b.quantity < v) | none => true))

/-- Error results of `BookManager._validate_id`. -/
inductive IdError where
  | notPositive
  | idExists
deriving DecidableEq, Repr

/-- `BookManager._validate_id`: id must be positive and must not belong to
another live record.  The exclusion uses `exclude_id is None` (identity
with None, unlike the truthiness test in `is_duplicate_title_author`). -/
def validate_id (s : Store) (book_id : Int) (exclude_id : Option Int) :
    Option IdError :=
  if book_id ≤ 0 then some .notPositive
  else
    match get_book s book_id with
    | some existing =>
      match exclude_id with
      | none => some .idExists
      | some e => if existing.id ≠ e then some .idExists else none
    | none => none

/-- Outcome of a numeric prompt in the update handlers: the user typed the
cancel sentinel `x`, an unparseable string, or a parseable value.  For
quantities the code guards with `str.isdigit`, so only a natural number can
parse; for ids `int(...)` also accepts negatives; for prices `float(...)`
is embedded as `Rat`. -/
inductive NumInput (α : Type) where
  | cancel
  | invalid
  | value (v : α)
deriving DecidableEq, Repr

/-- Result of `BookManager._handle_id_update`. -/
inductive IdOutcome where
  | sentinel
  | parseError
  | unchanged
  | notPositive
  | idExists
  | staged (v : Int)
deriving DecidableEq, Repr

/-- Result of `BookManager._handle_title_update` and
`_handle_author_update`. -/
inductive TextOutcome where
  | sentinel
  | unchanged
  | empty
  | duplicate
  | staged (v : String)
deriving DecidableEq, Repr

/-- Result of `BookManager._handle_quantity_update`. -/
inductive QtyOutcome where
  | sentinel
  | parseError
  | unchanged
  | negative
  | staged (v : Int)
deriving DecidableEq, Repr

/-- Result of `BookManager._handle_price_update`. -/
inductive PriceOutcome where
  | sentinel
  | parseError
  | unchanged
  | negative
  | staged (v : Rat)
deriving DecidableEq, Repr

/-- `BookManager._handle_id_update`: skip on `x`, re-prompt on a
non-numeric string, informational no-op when the value equals the current
id, then `_validate_id` with the current id excluded; only a valid new id
is staged. -/
def handle_id_update (db : Store) (book : Book) (inp : NumInput Int) :
    IdOutcome :=
  match inp with
  | .cancel => .sentinel
  | .invalid => .parseError
  | .value v =>
    if v = book.id then .unchanged
    else
      match validate_id db v (some book.id) with
      | some .notPositive => .notPositive
      | some .idExists => .idExists
      | none => .staged v

/-- `BookManager._handle_title_update`: skip when the input spells `x`
case-insensitively, no-op when the stripped input equals the current
title, reject blank input, then check the natural key built from the new
title and `updates.get("author", book["author"])` excluding this record;
the stripped title is staged. -/
def handle_title_update (db : Store) (book : Book) (updates : Updates)
    (inp : String) : TextOutcome :=
  if py_lower inp = "x" then .sentinel
  else if py_strip inp = book.title then .unchanged
  else if py_strip inp = "" then .empty
  else
    if is_duplicate_title_author db (py_strip inp) (updates.author.getD book.author)
        (some book.id) then .duplicate
    else .staged (py_strip inp)

/-- `BookManager._handle_author_update`: mirror image of the title
handler, checking against `updates.get("title", book["title"])`. -/
def handle_author_update (db : Store) (book : Book) (updates : Updates)
    (inp : String) : TextOutcome :=
  if py_lower inp = "x" then .sentinel
  else if py_strip inp = book.author then .unchanged
  else if py_strip inp = "" then .empty
  else
    if is_duplicate_title_author db (updates.title.getD book.title) (py_strip inp)
        (some book.id) then .duplicate
    else .staged (py_strip inp)

/-- `BookManager._handle_quantity_update`: the prompt guards with
`str.isdigit`, so the parsed value is a natural number; a value equal to
the current quantity is an informational no-op; `_validate_quantity`
rejects negatives (unreachable behind `isdigit`, kept for fidelity). -/
def handle_quantity_update (book : Book) (inp : NumInput Nat) : QtyOutcome :=
  match inp with
  | .cancel => .sentinel
  | .invalid => .parseError
  | .value v =>
    if (v : Int) = book.quantity then .unchanged
    else if (v : Int) < 0 then .negative
    else .staged (v : Int)

/-- `BookManager._handle_price_update`: parse with `float(...)`, no-op on
an equal value, `_validate_price` rejects negatives. -/
def handle_price_update (book : Book) (inp : NumInput Rat) : PriceOutcome :=
  match inp with
  | .cancel => .sentinel
  | .invalid => .parseError
  | .value v =>
    if v = book.price then .unchanged
    else if v < 0 then .negative
    else .staged v

/-- The menu choice in `BookManager._get_update_choice`: 1 id, 2 title,
3 author, 4 quantity, 5 price, 6 update all, x back. -/
inductive Choice where
  | c1 | c2 | c3 | c4 | c5 | c6 | cx
deriving DecidableEq, Repr

/-- Python test `choice in ("1", "6")`. -/
def sel_id : Choice → Bool
  | .c1 => true
  | .c6 => true
  | _ => false

/-- Python test `choice in ("2", "6")`. -/
def sel_title : Choice → Bool
  | .c2 => true
  | .c6 => true
  | _ => false

/-- Python test `choice in ("3", "6")`. -/
def sel_author : Choice → Bool
  | .c3 => true
  | .c6 => true
  | _ => false

/-- Python test `choice in ("4", "6")`. -/
def sel_qty : Choice → Bool
  | .c4 => true
  | .c6 => true
  | _ => false

/-- Python test `choice in ("5", "6")`. -/
def sel_price : Choice → Bool
  | .c5 => true
  | .c6 => true
  | _ => false

/-- The raw responses a user gives to the per-field prompts of one pass of
`_process_update_choice`. -/
structure StepInputs where
  idIn : NumInput Int
  titleIn : String
  authorIn : String
  qtyIn : NumInput Nat
  priceIn : NumInput Rat
deriving DecidableEq, Repr

/-- The id block of `_process_update_choice` (`if choice in ("1", "6")`). -/
def stage_id (db : Store) (book : Book) (c : Choice) (inp : StepInputs) :
    Updates :=
  if sel_id c then
    match handle_id_update db book inp.idIn with
    | .staged v => { id := some v }
    | _ => {}
  else {}

/-- The title block of `_process_update_choice`. -/
def stage_title (db : Store) (book : Book) (c : Choice) (inp : StepInputs)
    (u : Updates) : Updates :=
  if sel_title c then
    match handle_title_update db book u inp.titleIn with
    | .staged v => { u with title := some v }
    | _ => u
  else u

/-- The author block of `_process_update_choice`. -/
def stage_author (db : Store) (book : Book) (c : Choice) (inp : StepInputs)
    (u : Updates) : Updates :=
  if sel_author c then
    match handle_author_update db book u inp.authorIn with
    | .staged v => { u with author := some v }
    | _ => u
  else u

/-- The quantity block of `_process_update_choice`. -/
def stage_quantity (book : Book) (c : Choice) (inp : StepInputs)
    (u : Updates) : Updates :=
  if sel_qty c then
    match handle_quantity_update book inp.qtyIn with
    | .staged v => { u with quantity := some v }
    | _ => u
  else u

/-- The price block of `_process_update_choice`. -/
def stage_price (book : Book) (c : Choice) (inp : StepInputs)
    (u : Updates) : Updates :=
  if sel_price c then
    match handle_price_update book inp.priceIn with
    | .staged v => { u with price := some v }
    | _ => u
  else u

/-- The `updates` dictionary after all five field blocks of
`_process_update_choice` have run in source order. -/
def staged_updates (db : Store) (book : Book) (c : Choice)
    (inp : StepInputs) : Updates :=
  stage_price book c inp
    (stage_quantity book c inp
      (stage_author db book c inp
        (stage_title db book c inp
          (stage_id db book c inp))))

/-- `BookManager._process_update_choice`: run the five field blocks, then,
exactly when both title and author were staged, re-run the combined
natural-key check (`_validate_combined_update`); its failure discards the
whole changeset (Python returns None).  An empty dictionary means no
changes were made. -/
def process_update_choice (db : Store) (book : Book) (c : Choice)
    (inp : StepInputs) : Option Updates :=
  let u := staged_updates db book c inp
  match u.title, u.author with
  | some t, some a =>
    if is_duplicate_title_author db t a (some book.id) then none
    else some u
  | _, _ => some u

/-- Outcome reported by `BookManager._apply_updates`. -/
inductive ApplySignal where
  | noChangesMsg
  | notFound
  | updated
  | updateFailed
  | updateFailedError
deriving DecidableEq, Repr

/-- The `new_book` dictionary built inside the identifier branch of
`BookManager._apply_updates`: each field taken from the changeset when
present, else copied from the current record. -/
def new_book_of (book : Book) (u : Updates) : NewBook :=
  { id := u.id.getD book.id,
    title := u.title.getD book.title,
    author := u.author.getD book.author,
    quantity := u.quantity.getD book.quantity,
    price := u.price.getD book.price }

/-- `BookManager._apply_updates`.  The identifier-change branch executes
`BEGIN TRANSACTION`, then `add_book(new_book)` and, on success,
`delete_book(book_id)` followed by `conn.commit()`.  Crucially, `add_book`
and `delete_book` each call `conn.commit()` themselves, so once `add_book`
returns True its insert is already durable: the `conn.rollback()` run when
the delete raises `sqlite3.Error` (modelled by `deleteFault`) has nothing
left to undo, and the store keeps both the old and the new row.  When
`add_book` fails (PRIMARY KEY clash or the `insertFault` flag) nothing was
committed and the rollback leaves the store unchanged.  The non-id branch
delegates to `update_book`. -/
def apply_updates (s : Store) (book_id : Int) (u : Updates) (t : Nat)
    (insertFault deleteFault : Bool) : ApplySignal × Store :=
  if u = {} then (.noChangesMsg, s)
  else if u.id.isSome then
    match get_book s book_id with
    | none => (.notFound, s)
    | some book =>
      match add_book s (new_book_of book u) t insertFault with
      | (false, s1) => (.updateFailed, s1)
      | (true, s1) =>
        if deleteFault then (.updateFailedError, s1)
        else (.updated, (delete_book s1 book_id).2)
  else
    match update_book_db s book_id u t with
    | (true, s1) => (.updated, s1)
    | (false, s1) => (.updateFailed, s1)

/-- Signal produced by one pass of the `BookManager.update_book` loop. -/
inductive IterSignal where
  | cancelled
  | validationFailed
  | noChanges
  | applied (a : ApplySignal)
deriving DecidableEq, Repr

/-- One pass of the `while True` loop in `BookManager.update_book`: cancel
on `x`, otherwise stage a changeset; a None changeset is a validation
failure and an empty one the `no_changes` message, neither touching the
store; otherwise commit through `_apply_updates`. -/
def run_update_iteration (db : Store) (book : Book) (c : Choice)
    (inp : StepInputs) (t : Nat) (insertFault deleteFault : Bool) :
    IterSignal × Store :=
  if c = .cx then (.cancelled, db)
  else
    match process_update_choice db book c inp with
    | none => (.validationFailed, db)
    | some u =>
      if u = {} then (.noChanges, db)
      else
        let r := apply_updates db book.id u t insertFault deleteFault
        (.applied r.1, r.2)

/-- One loop pass of an update session: the menu choice, the per-field
responses, the commit timestamp and the injected store faults. -/
structure Step where
  choice : Choice
  inputs : StepInputs
  now : Nat
  insFault : Bool
  delFault : Bool

/-- The loop of `BookManager.update_book` after the target record was
fetched: each pass stages and possibly commits, then refreshes `book` via
`get_book(updates.get("id", book["id"]))`; if that refresh comes back None
the next pass crashes on the missing record, ending the session. -/
def run_update_steps (s : Store) (book : Book) : List Step → Store
  | [] => s
  | st :: rest =>
    if st.choice = .cx then s
    else
      match process_update_choice s book st.choice st.inputs with
      | none => run_update_steps s book rest
      | some u =>
        if u = {} then run_update_steps s book rest
        else
          match get_book (apply_updates s book.id u st.now st.insFault st.delFault).2
              (u.id.getD book.id) with
          | some b2 =>
            run_update_steps (apply_updates s book.id u st.now st.insFault st.delFault).2 b2 rest
          | none => (apply_updates s book.id u st.now st.insFault st.delFault).2

/-- `BookManager.update_book`: fetch the target record
(`_get_book_to_update`; failure or cancel leaves the store untouched),
then run the edit loop. -/
def run_update_session (s : Store) (book_id : Int) (steps : List Step) :
    Store :=
  match get_book s book_id with
  | none => s
  | some book => run_update_steps s book steps

/-- Outcome reported by the `BookManager.add_book` flow. -/
inductive AddOutcome where
  | notPositive
  | idExists
  | emptyTitle
  | emptyAuthor
  | duplicateKey
  | negativeQuantity
  | negativePrice
  | addFailed
  | added
deriving DecidableEq, Repr

/-- `BookManager.add_book` (the validated insert the spec calls `insert`):
validate the id (`_validate_id` with no exclusion), the stripped title and
author (`_validate_text`), the natural key (`_validate_duplicate` with no
exclusion), quantity (parsed through `isdigit`, hence a natural number)
and price, in source order, then call `BookDatabase.add_book` which stamps
both timestamps with now. -/
def add_book_flow (s : Store) (idv : Nat) (title author : String)
    (qty : Nat) (price : Rat) (t : Nat) : AddOutcome × Store :=
  match validate_id s (idv : Int) none with
  | some .notPositive => (.notPositive, s)
  | some .idExists => (.idExists, s)
  | none =>
    if py_strip title = "" then (.emptyTitle, s)
    else if py_strip author = "" then (.emptyAuthor, s)
    else if is_duplicate_title_author s (py_strip title) (py_strip author) none then
      (.duplicateKey, s)
    else if (qty : Int) < 0 then (.negativeQuantity, s)
    else if price < 0 then (.negativePrice, s)
    else
      match add_book s ⟨(idv : Int), py_strip title, py_strip author, (qty : Int), price⟩ t false with
      | (true, s1) => (.added, s1)
      | (false, s1) => (.addFailed, s1)

/-- A top-level mutating operation of the system: a validated insert, a
delete, or a whole update session (field updates and identifier changes
both live inside update sessions). -/
inductive SysOp where
  | ins (idv : Nat) (title author : String) (qty : Nat) (price : Rat) (t : Nat)
  | del (i : Int)
  | upd (book_id : Int) (steps : List Step)

/-- Execute a top-level operation. -/
def apply_sys_op (s : Store) : SysOp → Store
  | .ins idv title author qty price t => (add_book_flow s idv title author qty price t).2
  | .del i => (delete_book s i).2
  | .upd book_id steps => run_update_session s book_id steps

/-- No injected store fault anywhere in the operation. -/
def fault_free : SysOp → Prop
  | .upd _ steps => ∀ st ∈ steps, st.insFault = false ∧ st.delFault = false
  | _ => True

/-- Two rows collide on the case-insensitive natural key. -/
abbrev keyMatch (b : Book) (t a : String) : Prop :=
  py_lower b.title = py_lower t ∧ py_lower b.author = py_lower a

/-- Uniqueness of the primary key across live rows (the SQLite
`INTEGER PRIMARY KEY` constraint). -/
def IdsUnique (s : Store) : Prop :=
  s.Pairwise (fun b1 b2 => b1.id ≠ b2.id)

/-- Uniqueness of the case-insensitive `(title, author)` natural key
across live rows. -/
def NatKeyUnique (s : Store) : Prop :=
  s.Pairwise (fun b1 b2 => ¬ keyMatch b1 b2.title b2.author)

/-- No live row other than the one with the given id carries this natural
key. -/
def KeyClear (s : Store) (t a : String) (i : Int) : Prop :=
  ∀ b ∈ s, b.id ≠ i → ¬ keyMatch b t a

/-- A `fetchone` hit carries the id it was looked up with. -/
theorem get_book_id (s : Store) (i : Int) (b : Book)
    (h : get_book s i = some b) : b.id = i := by
  have := List.find?_some h
  simpa using this

/-- A `fetchone` hit is a live row. -/
theorem get_book_mem (s : Store) (i : Int) (b : Book)
    (h : get_book s i = some b) : b ∈ s :=
  List.mem_of_find?_eq_some h

/-- A `fetchone` miss means no live row has the id. -/
theorem get_book_none_iff (s : Store) (i : Int) :
    get_book s i = none ↔ ∀ b ∈ s, b.id ≠ i := by
  simp [get_book, List.find?_eq_none]

/-- The row-existence test used by `add_book` and `delete_book`, negated. -/
theorem any_id_false_iff (s : Store) (i : Int) :
    s.any (fun b => b.id == i) = false ↔ ∀ b ∈ s, b.id ≠ i := by
  simp [List.any_eq_false]

/-- A `fetchone` hit makes the row-existence test succeed. -/
theorem any_id_true_of_get (s : Store) (i : Int) (b : Book)
    (h : get_book s i = some b) : s.any (fun x => x.id == i) = true := by
  rw [List.any_eq_true]
  exact ⟨b, get_book_mem s i b h, by simp [get_book_id s i b h]⟩

/-- The natural-key collision relation is symmetric. -/
theorem keyRel_symm :
    Symmetric (fun b1 b2 : Book => ¬ keyMatch b1 b2.title b2.author) := by
  intro x y h hk
  exact h ⟨hk.1.symm, hk.2.symm⟩

/-- A failed duplicate check with an exclusion clears the key for every
other row.  When the excluded id is 0 the Python truthiness test drops the
exclusion and the check is strictly stronger, so the conclusion holds in
both branches. -/
theorem dup_false_keyClear (s : Store) (t a : String) (i : Int)
    (h : is_duplicate_title_author s t a (some i) = false) :
    KeyClear s t a i := by
  intro b hb hbi hk
  simp only [is_duplicate_title_author] at h
  by_cases hi : i = 0
  · rw [if_neg (by simp [hi])] at h
    rw [List.any_eq_false] at h
    have hbf := h b hb
    simp [hk.1, hk.2] at hbf
  · rw [if_pos hi] at h
    rw [List.any_eq_false] at h
    have hbf := h b hb
    simp [hk.1, hk.2] at hbf
    exact hbi hbf

/-- A failed duplicate check without exclusion clears the key for every
row. -/
theorem dup_none_false (s : Store) (t a : String)
    (h : is_duplicate_title_author s t a none = false) :
    ∀ b ∈ s, ¬ keyMatch b t a := by
  intro b hb hk
  simp only [is_duplicate_title_author] at h
  rw [List.any_eq_false] at h
  have hbf := h b hb
  simp [hk.1, hk.2] at hbf

/-- With unique primary keys, any live row carrying the looked-up id is
the row `fetchone` returns. -/
theorem get_book_unique (s : Store) (hIds : IdsUnique s) (i : Int) (b : Book)
    (h : get_book s i = some b) : ∀ x ∈ s, x.id = i → x = b := by
  induction s with
  | nil => intro x hx; simp at hx
  | cons hd tl ih =>
    rw [IdsUnique, List.pairwise_cons] at hIds
    intro x hx hxi
    by_cases hhd : hd.id = i
    · have hb : b = hd := by
        simp [get_book, List.find?_cons, hhd] at h
        exact h.symm
      rcases List.mem_cons.mp hx with hxh | hxt
      · rw [hxh, hb]
      · exact absurd hxi (by rw [← hhd]; exact (hIds.1 x hxt).symm)
    · have htl : get_book tl i = some b := by
        simpa [get_book, List.find?_cons, hhd] using h
      rcases List.mem_cons.mp hx with hxh | hxt
      · exact absurd hxi (hxh ▸ hhd)
      · exact ih hIds.2 htl x hxt hxi

/-- Running the UPDATE statement over the table rewrites the row that
`fetchone` returns and keeps it first for its id. -/
theorem get_book_map_update (s : Store) (i : Int) (u : Updates) (t : Nat)
    (b : Book) (h : get_book s i = some b) :
    get_book (s.map (fun x => if x.id == i then apply_fields x u t else x)) i
      = some (apply_fields b u t) := by
  induction s with
  | nil => simp [get_book] at h
  | cons hd tl ih =>
    by_cases hhd : hd.id = i
    · have hb : b = hd := by
        simp [get_book, List.find?_cons, hhd] at h
        exact h.symm
      have hid : (apply_fields hd u t).id = hd.id := rfl
      simp [get_book, List.find?_cons, hhd, hid, hb]
    · have htl : get_book tl i = some b := by
        simpa [get_book, List.find?_cons, hhd] using h
      simpa [get_book, List.find?_cons, hhd] using ih htl

/-- Looking up an id that no row of the first chunk has skips to the
second chunk. -/
theorem get_book_append_right (l1 l2 : Store) (i : Int)
    (h : ∀ b ∈ l1, b.id ≠ i) : get_book (l1 ++ l2) i = get_book l2 i := by
  induction l1 with
  | nil => rfl
  | cons hd tl ih =>
    have hf : (hd.id == i) = false := by
      simpa using h hd (List.mem_cons_self hd tl)
    have hih := ih (fun b hb => h b (List.mem_cons_of_mem hd hb))
    simp only [get_book, List.cons_append, List.find?_cons, hf] at hih ⊢
    exact hih

/-- After `DELETE ... WHERE id = ?` no row with that id is found. -/
theorem get_book_filter_ne (s : Store) (i : Int) :
    get_book (s.filter (fun b => !(b.id == i))) i = none := by
  rw [get_book, List.find?_eq_none]
  intro x hx
  have hkeep := (List.mem_filter.mp hx).2
  simpa using hkeep

/-- Fault-free `add_book` either hits a PRIMARY KEY clash and leaves the
store alone, or commits the freshly stamped row at the end of the
table. -/
theorem add_book_cases (s : Store) (d : NewBook) (t : Nat) :
    (add_book s d t false = (false, s) ∧
      s.any (fun b => b.id == d.id) = true) ∨
    (add_book s d t false =
        (true, s ++ [⟨d.id, d.title, d.author, d.quantity, d.price, t, t⟩]) ∧
      s.any (fun b => b.id == d.id) = false) := by
  by_cases h : s.any (fun b => b.id == d.id) = true
  · exact .inl ⟨by simp [add_book, h], h⟩
  · exact .inr ⟨by simp [add_book, h], by simpa using h⟩

/-- The store produced by a non-degenerate `update_book` call is the
mapped table. -/
theorem update_book_db_snd (s : Store) (i : Int) (u : Updates) (t : Nat)
    (hu : ¬ u = {}) :
    (update_book_db s i u t).2 =
      s.map (fun b => if b.id == i then apply_fields b u t else b) := by
  simp [update_book_db, hu]

/-- Passing `_validate_id` with no exclusion means the id is free. -/
theorem validate_id_none (s : Store) (v : Int)
    (h : validate_id s v none = none) : get_book s v = none := by
  simp only [validate_id] at h
  by_cases hv : v ≤ 0
  · simp [hv] at h
  · rw [if_neg hv] at h
    cases hg : get_book s v with
    | none => rfl
    | some existing => rw [hg] at h; simp at h

/-- A staged id passed `_validate_id` with the current id excluded: it is
a genuinely new id owned by no live row. -/
theorem handle_id_staged (db : Store) (book : Book) (inp : NumInput Int)
    (v : Int) (h : handle_id_update db book inp = .staged v) :
    v ≠ book.id ∧ 0 < v ∧ get_book db v = none := by
  cases inp with
  | cancel => simp [handle_id_update] at h
  | invalid => simp [handle_id_update] at h
  | value w =>
    simp only [handle_id_update] at h
    by_cases hw : w = book.id
    · simp [hw] at h
    · rw [if_neg hw] at h
      cases hv : validate_id db w (some book.id) with
      | some e => rw [hv] at h; cases e <;> simp at h
      | none =>
        rw [hv] at h
        simp only [IdOutcome.staged.injEq] at h
        subst h
        simp only [validate_id] at hv
        by_cases hw0 : w ≤ 0
        · simp [hw0] at hv
        · rw [if_neg hw0] at hv
          refine ⟨hw, by omega, ?_⟩
          cases hg : get_book db w with
          | none => rfl
          | some existing =>
            rw [hg] at hv
            simp at hv
            have hex : existing.id = w := get_book_id db w existing hg
            exact absurd (by rw [← hex]; exact hv) hw

/-- A staged title passed the natural-key check against the author value
the session would commit alongside it. -/
theorem handle_title_staged (db : Store) (book : Book) (updates : Updates)
    (inp : String) (v : String)
    (h : handle_title_update db book updates inp = .staged v) :
    is_duplicate_title_author db v (updates.author.getD book.author)
      (some book.id) = false := by
  simp only [handle_title_update] at h
  by_cases h1 : py_lower inp = "x"
  · simp [h1] at h
  rw [if_neg h1] at h
  by_cases h2 : py_strip inp = book.title
  · simp [h2] at h
  rw [if_neg h2] at h
  by_cases h3 : py_strip inp = ""
  · simp [h3] at h
  rw [if_neg h3] at h
  cases hdup : is_duplicate_title_author db (py_strip inp)
      (updates.author.getD book.author) (some book.id) with
  | true => rw [hdup] at h; simp at h
  | false =>
    rw [hdup] at h
    simp at h
    exact h ▸ hdup

/-- A staged author passed the natural-key check against the title value
the session would commit alongside it. -/
theorem handle_author_staged (db : Store) (book : Book) (updates : Updates)
    (inp : String) (v : String)
    (h : handle_author_update db book updates inp = .staged v) :
    is_duplicate_title_author db (updates.title.getD book.title) v
      (some book.id) = false := by
  simp only [handle_author_update] at h
  by_cases h1 : py_lower inp = "x"
  · simp [h1] at h
  rw [if_neg h1] at h
  by_cases h2 : py_strip inp = book.author
  · simp [h2] at h
  rw [if_neg h2] at h
  by_cases h3 : py_strip inp = ""
  · simp [h3] at h
  rw [if_neg h3] at h
  cases hdup : is_duplicate_title_author db (updates.title.getD book.title)
      (py_strip inp) (some book.id) with
  | true => rw [hdup] at h; simp at h
  | false =>
    rw [hdup] at h
    simp at h
    exact h ▸ hdup

/-- The id block either stages nothing or stages exactly the validated
new id. -/
theorem stage_id_spec (db : Store) (book : Book) (c : Choice)
    (inp : StepInputs) :
    stage_id db book c inp = {} ∨
    ∃ v, handle_id_update db book inp.idIn = .staged v ∧
      stage_id db book c inp = { id := some v } := by
  unfold stage_id
  by_cases hc : sel_id c = true
  · rw [if_pos hc]
    cases h : handle_id_update db book inp.idIn with
    | staged v => exact .inr ⟨v, rfl, rfl⟩
    | sentinel => exact .inl rfl
    | parseError => exact .inl rfl
    | unchanged => exact .inl rfl
    | notPositive => exact .inl rfl
    | idExists => exact .inl rfl
  · rw [if_neg hc]; exact .inl rfl

/-- The title block either leaves the changeset alone or adds exactly a
title staged by the title handler at that changeset. -/
theorem stage_title_spec (db : Store) (book : Book) (c : Choice)
    (inp : StepInputs) (u : Updates) :
    stage_title db book c inp u = u ∨
    ∃ v, handle_title_update db book u inp.titleIn = .staged v ∧
      stage_title db book c inp u = { u with title := some v } := by
  unfold stage_title
  by_cases hc : sel_title c = true
  · rw [if_pos hc]
    cases h : handle_title_update db book u inp.titleIn with
    | staged v => exact .inr ⟨v, rfl, rfl⟩
    | sentinel => exact .inl rfl
    | unchanged => exact .inl rfl
    | empty => exact .inl rfl
    | duplicate => exact .inl rfl
  · rw [if_neg hc]; exact .inl rfl

/-- The author block either leaves the changeset alone or adds exactly an
author staged by the author handler at that changeset. -/
theorem stage_author_spec (db : Store) (book : Book) (c : Choice)
    (inp : StepInputs) (u : Updates) :
    stage_author db book c inp u = u ∨
    ∃ v, handle_author_update db book u inp.authorIn = .staged v ∧
      stage_author db book c inp u = { u with author := some v } := by
  unfold stage_author
  by_cases hc : sel_author c = true
  · rw [if_pos hc]
    cases h : handle_author_update db book u inp.authorIn with
    | staged v => exact .inr ⟨v, rfl, rfl⟩
    | sentinel => exact .inl rfl
    | unchanged => exact .inl rfl
    | empty => exact .inl rfl
    | duplicate => exact .inl rfl
  · rw [if_neg hc]; exact .inl rfl

/-- The id block stages no title. -/
theorem stage_id_title (db : Store) (book : Book) (c : Choice)
    (inp : StepInputs) : (stage_id db book c inp).title = none := by
  rcases stage_id_spec db book c inp with h | ⟨v, _, h⟩ <;> rw [h]

/-- The id block stages no author. -/
theorem stage_id_author (db : Store) (book : Book) (c : Choice)
    (inp : StepInputs) : (stage_id db book c inp).author = none := by
  rcases stage_id_spec db book c inp with h | ⟨v, _, h⟩ <;> rw [h]

/-- The title block keeps the staged id. -/
theorem stage_title_id (db : Store) (book : Book) (c : Choice)
    (inp : StepInputs) (u : Updates) :
    (stage_title db book c inp u).id = u.id := by
  rcases stage_title_spec db book c inp u with h | ⟨v, _, h⟩ <;> rw [h]

/-- The title block keeps the staged author. -/
theorem stage_title_author (db : Store) (book : Book) (c : Choice)
    (inp : StepInputs) (u : Updates) :
    (stage_title db book c inp u).author = u.author := by
  rcases stage_title_spec db book c inp u with h | ⟨v, _, h⟩ <;> rw [h]

/-- The author block keeps the staged id. -/
theorem stage_author_id (db : Store) (book : Book) (c : Choice)
    (inp : StepInputs) (u : Updates) :
    (stage_author db book c inp u).id = u.id := by
  rcases stage_author_spec db book c inp u with h | ⟨v, _, h⟩ <;> rw [h]

/-- The author block keeps the staged title. -/
theorem stage_author_title (db : Store) (book : Book) (c : Choice)
    (inp : StepInputs) (u : Updates) :
    (stage_author db book c inp u).title = u.title := by
  rcases stage_author_spec db book c inp u with h | ⟨v, _, h⟩ <;> rw [h]

/-- The quantity block touches only the quantity key. -/
theorem stage_quantity_frame (book : Book) (c : Choice) (inp : StepInputs)
    (u : Updates) :
    (stage_quantity book c inp u).id = u.id ∧
    (stage_quantity book c inp u).title = u.title ∧
    (stage_quantity book c inp u).author = u.author := by
  unfold stage_quantity
  by_cases hc : sel_qty c = true
  · rw [if_pos hc]
    cases handle_quantity_update book inp.qtyIn <;> exact ⟨rfl, rfl, rfl⟩
  · rw [if_neg hc]; exact ⟨rfl, rfl, rfl⟩

/-- The price block touches only the price key. -/
theorem stage_price_frame (book : Book) (c : Choice) (inp : StepInputs)
    (u : Updates) :
    (stage_price book c inp u).id = u.id ∧
    (stage_price book c inp u).title = u.title ∧
    (stage_price book c inp u).author = u.author := by
  unfold stage_price
  by_cases hc : sel_price c = true
  · rw [if_pos hc]
    cases handle_price_update book inp.priceIn <;> exact ⟨rfl, rfl, rfl⟩
  · rw [if_neg hc]; exact ⟨rfl, rfl, rfl⟩

/-- An id staged by a whole pass of `_process_update_choice` came from
the id handler: it differs from the current id and no live row owns it. -/
theorem staged_updates_id (db : Store) (book : Book) (c : Choice)
    (inp : StepInputs) (j : Int)
    (h : (staged_updates db book c inp).id = some j) :
    j ≠ book.id ∧ db.any (fun b => b.id == j) = false := by
  unfold staged_updates at h
  rw [(stage_price_frame book c inp _).1, (stage_quantity_frame book c inp _).1,
    stage_author_id, stage_title_id] at h
  rcases stage_id_spec db book c inp with h1 | ⟨v, hv, h1⟩
  · rw [h1] at h; simp at h
  · rw [h1] at h
    simp only [Option.some.injEq] at h
    subst h
    obtain ⟨hne, _, hget⟩ := handle_id_staged db book inp.idIn v hv
    exact ⟨hne, (any_id_false_iff db v).mpr ((get_book_none_iff db v).mp hget)⟩

/-- The `(title, author)` pair a pass of `_process_update_choice` would
commit for this record collides with no other live row: whichever of the
two fields was staged last was checked against the final value of the
other. -/
theorem staged_updates_key (db : Store) (book : Book) (c : Choice)
    (inp : StepInputs) (hKeys : NatKeyUnique db)
    (hbook : get_book db book.id = some book) :
    KeyClear db ((staged_updates db book c inp).title.getD book.title)
      ((staged_updates db book c inp).author.getD book.author) book.id := by
  have htitle : (staged_updates db book c inp).title =
      (stage_author db book c inp
        (stage_title db book c inp (stage_id db book c inp))).title := by
    unfold staged_updates
    rw [(stage_price_frame book c inp _).2.1, (stage_quantity_frame book c inp _).2.1]
  have hauthor : (staged_updates db book c inp).author =
      (stage_author db book c inp
        (stage_title db book c inp (stage_id db book c inp))).author := by
    unfold staged_updates
    rw [(stage_price_frame book c inp _).2.2, (stage_quantity_frame book c inp _).2.2]
  rw [htitle, hauthor]
  rcases stage_author_spec db book c inp
      (stage_title db book c inp (stage_id db book c inp))
    with ha | ⟨av, hav, ha⟩
  · rw [ha, stage_title_author, stage_id_author]
    rcases stage_title_spec db book c inp (stage_id db book c inp)
      with ht | ⟨tv, htv, ht⟩
    · rw [ht, stage_id_title]
      intro b hb hbid hk
      have hbb : b ≠ book := fun he => hbid (by rw [he])
      exact (hKeys.forall keyRel_symm) hb (get_book_mem db book.id book hbook)
        hbb hk
    · rw [ht]
      have hdup := handle_title_staged db book (stage_id db book c inp)
        inp.titleIn tv htv
      rw [stage_id_author] at hdup
      exact dup_false_keyClear db tv book.author book.id hdup
  · rw [ha]
    have hdup := handle_author_staged db book
      (stage_title db book c inp (stage_id db book c inp)) inp.authorIn av hav
    exact dup_false_keyClear db _ av book.id hdup

/-- A changeset `_process_update_choice` hands back is exactly the staged
dictionary (the combined check only decides between returning it and
discarding everything). -/
theorem process_eq_staged (db : Store) (book : Book) (c : Choice)
    (inp : StepInputs) (u : Updates)
    (h : process_update_choice db book c inp = some u) :
    u = staged_updates db book c inp := by
  simp only [process_update_choice] at h
  cases ht : (staged_updates db book c inp).title with
  | none =>
    rw [ht] at h
    simp at h
    exact h.symm
  | some tv =>
    rw [ht] at h
    cases ha : (staged_updates db book c inp).author with
    | none =>
      rw [ha] at h
      simp at h
      exact h.symm
    | some av =>
      rw [ha] at h
      by_cases hdup : is_duplicate_title_author db tv av (some book.id) = true
      · simp [hdup] at h
      · simp only [Bool.not_eq_true] at hdup
        simp [hdup] at h
        exact h.symm

/-- A fault-free commit of a changeset whose staged values passed the
session checks preserves primary-key and natural-key uniqueness. -/
theorem apply_updates_pres (s : Store) (book : Book) (u : Updates) (t : Nat)
    (hIds : IdsUnique s) (hKeys : NatKeyUnique s)
    (hbook : get_book s book.id = some book)
    (hclear : KeyClear s (u.title.getD book.title) (u.author.getD book.author)
      book.id)
    (hfresh : ∀ j, u.id = some j →
      j ≠ book.id ∧ s.any (fun b => b.id == j) = false) :
    IdsUnique (apply_updates s book.id u t false false).2 ∧
    NatKeyUnique (apply_updates s book.id u t false false).2 := by
  by_cases hu : u = {}
  · simp only [apply_updates, if_pos hu]
    exact ⟨hIds, hKeys⟩
  simp only [apply_updates, if_neg hu]
  by_cases hio : u.id.isSome = true
  · rw [if_pos hio]
    simp only [hbook]
    obtain ⟨j, hj⟩ := Option.isSome_iff_exists.mp hio
    obtain ⟨hjne, hjfresh⟩ := hfresh j hj
    rcases add_book_cases s (new_book_of book u) t with ⟨hadd, _⟩ | ⟨hadd, hany⟩
    · simp only [hadd]
      exact ⟨hIds, hKeys⟩
    · simp only [hadd, Bool.false_eq_true, if_false, ite_false]
      have hrowid : (new_book_of book u).id = j := by
        simp [new_book_of, hj]
      set row : Book := ⟨(new_book_of book u).id, (new_book_of book u).title,
        (new_book_of book u).author, (new_book_of book u).quantity,
        (new_book_of book u).price, t, t⟩ with hrow
      have hkeep : [row].filter (fun b => !(b.id == book.id)) = [row] := by
        simp [hrow, hrowid, hjne]
      simp only [delete_book, List.filter_append, hkeep]
      have hfreshall : ∀ b ∈ s, b.id ≠ j := by
        rw [hrowid] at hany
        exact (any_id_false_iff s j).mp hany
      constructor
      · rw [IdsUnique, List.pairwise_append]
        refine ⟨List.Pairwise.sublist (List.filter_sublist s) hIds,
          List.pairwise_singleton _ _, ?_⟩
        intro a ha b hb
        rw [List.mem_singleton] at hb
        subst hb
        have hamem : a ∈ s := List.mem_of_mem_filter ha
        rw [hrow]
        simpa [hrowid] using hfreshall a hamem
      · rw [NatKeyUnique, List.pairwise_append]
        refine ⟨List.Pairwise.sublist (List.filter_sublist s) hKeys,
          List.pairwise_singleton _ _, ?_⟩
        intro a ha b hb
        rw [List.mem_singleton] at hb
        subst hb
        have hamem : a ∈ s := List.mem_of_mem_filter ha
        have haneq : a.id ≠ book.id := by
          have := (List.mem_filter.mp ha).2
          simpa using this
        exact hclear a hamem haneq
  · rw [if_neg hio]
    have hsnd := update_book_db_snd s book.id u t hu
    have hmap : IdsUnique (s.map
        (fun b => if b.id == book.id then apply_fields b u t else b)) ∧
        NatKeyUnique (s.map
        (fun b => if b.id == book.id then apply_fields b u t else b)) := by
      have hfm_id : ∀ x : Book,
          (if x.id == book.id then apply_fields x u t else x).id = x.id := by
        intro x
        by_cases hx : x.id = book.id <;> simp [hx, apply_fields]
      constructor
      · rw [IdsUnique, List.pairwise_map]
        refine hIds.imp ?_
        intro a b hab
        rw [hfm_id, hfm_id]
        exact hab
      · rw [NatKeyUnique, List.pairwise_map]
        refine (List.Pairwise.and hIds hKeys).imp_of_mem ?_
        intro a b ha hb hand
        obtain ⟨hne, hkey⟩ := hand
        by_cases ha2 : a.id = book.id <;> by_cases hb2 : b.id = book.id
        · exact absurd (ha2.trans hb2.symm) hne
        · have haeq : a = book := get_book_unique s hIds book.id book hbook a ha ha2
          simp only [ha2, beq_self_eq_true, if_true, hb2, beq_iff_eq,
            ite_true, ite_false]
          subst haeq
          intro hk
          exact hclear b hb hb2 ⟨hk.1.symm, hk.2.symm⟩
        · have hbeq : b = book := get_book_unique s hIds book.id book hbook b hb hb2
          rw [if_neg (by simpa using ha2), if_pos (by simpa using hb2)]
          subst hbeq
          intro hk
          exact hclear a ha ha2 hk
        · rw [if_neg (by simpa using ha2), if_neg (by simpa using hb2)]
          exact hkey
    rcases hres : update_book_db s book.id u t with ⟨ok, s1⟩
    rw [hres] at hsnd
    have hsnd2 : s1 = s.map
        (fun b => if b.id == book.id then apply_fields b u t else b) := hsnd
    cases ok
    · rw [hsnd2]; exact hmap
    · rw [hsnd2]; exact hmap

/-- One committing pass of the update loop, run without store faults,
preserves both uniqueness invariants. -/
theorem iter_pres (s : Store) (book : Book) (c : Choice) (inp : StepInputs)
    (t : Nat) (u : Updates)
    (hIds : IdsUnique s) (hKeys : NatKeyUnique s)
    (hbook : get_book s book.id = some book)
    (hproc : process_update_choice s book c inp = some u) :
    IdsUnique (apply_updates s book.id u t false false).2 ∧
    NatKeyUnique (apply_updates s book.id u t false false).2 := by
  have he := process_eq_staged s book c inp u hproc
  subst he
  exact apply_updates_pres s book (staged_updates s book c inp) t hIds hKeys
    hbook (staged_updates_key s book c inp hKeys hbook)
    (fun j hj => staged_updates_id s book c inp j hj)

/-- The whole edit loop of an update session, run without store faults,
preserves both uniqueness invariants. -/
theorem steps_pres (steps : List Step) : ∀ (s : Store) (book : Book),
    IdsUnique s → NatKeyUnique s → get_book s book.id = some book →
    (∀ st ∈ steps, st.insFault = false ∧ st.delFault = false) →
    IdsUnique (run_update_steps s book steps) ∧
    NatKeyUnique (run_update_steps s book steps) := by
  induction steps with
  | nil =>
    intro s book h1 h2 _ _
    exact ⟨h1, h2⟩
  | cons st rest ih =>
    intro s book h1 h2 hb hf
    obtain ⟨hif, hdf⟩ := hf st (List.mem_cons_self st rest)
    have hfr : ∀ x ∈ rest, x.insFault = false ∧ x.delFault = false :=
      fun x hx => hf x (List.mem_cons_of_mem st hx)
    by_cases hc : st.choice = .cx
    · simp only [run_update_steps, if_pos hc]
      exact ⟨h1, h2⟩
    cases hp : process_update_choice s book st.choice st.inputs with
    | none =>
      simp only [run_update_steps, if_neg hc, hp]
      exact ih s book h1 h2 hb hfr
    | some u =>
      by_cases hue : u = {}
      · simp only [run_update_steps, if_neg hc, hp, if_pos hue]
        exact ih s book h1 h2 hb hfr
      · simp only [run_update_steps, if_neg hc, hp, if_neg hue, hif, hdf]
        have hinv := iter_pres s book st.choice st.inputs st.now u h1 h2 hb hp
        cases hg : get_book (apply_updates s book.id u st.now false false).2
            (u.id.getD book.id) with
        | none =>
          simp only [hg]
          exact hinv
        | some b2 =>
          simp only [hg]
          have hb2 : get_book (apply_updates s book.id u st.now false false).2
              b2.id = some b2 := by
            rw [get_book_id _ _ _ hg]
            exact hg
          exact ih _ b2 hinv.1 hinv.2 hb2 hfr

/-- The validated insert flow preserves both uniqueness invariants. -/
theorem add_flow_pres (s : Store) (idv : Nat) (title author : String)
    (qty : Nat) (price : Rat) (t : Nat)
    (hIds : IdsUnique s) (hKeys : NatKeyUnique s) :
    IdsUnique (add_book_flow s idv title author qty price t).2 ∧
    NatKeyUnique (add_book_flow s idv title author qty price t).2 := by
  simp only [add_book_flow]
  cases hv : validate_id s (idv : Int) none with
  | some e => cases e <;> exact ⟨hIds, hKeys⟩
  | none =>
    by_cases h1 : py_strip title = ""
    · rw [if_pos h1]; exact ⟨hIds, hKeys⟩
    rw [if_neg h1]
    by_cases h2 : py_strip author = ""
    · rw [if_pos h2]; exact ⟨hIds, hKeys⟩
    rw [if_neg h2]
    by_cases h3 : is_duplicate_title_author s (py_strip title) (py_strip author) none = true
    · rw [if_pos h3]; exact ⟨hIds, hKeys⟩
    rw [if_neg h3]
    by_cases h4 : (qty : Int) < 0
    · rw [if_pos h4]; exact ⟨hIds, hKeys⟩
    rw [if_neg h4]
    by_cases h5 : price < 0
    · rw [if_pos h5]; exact ⟨hIds, hKeys⟩
    rw [if_neg h5]
    rcases add_book_cases s ⟨(idv : Int), py_strip title, py_strip author, (qty : Int), price⟩ t
      with ⟨hadd, _⟩ | ⟨hadd, hany⟩
    · simp only [hadd]
      exact ⟨hIds, hKeys⟩
    · simp only [hadd]
      simp only [Bool.not_eq_true] at h3
      have hclear := dup_none_false s (py_strip title) (py_strip author) h3
      have hfreshall := (any_id_false_iff s (idv : Int)).mp hany
      constructor
      · rw [IdsUnique, List.pairwise_append]
        refine ⟨hIds, List.pairwise_singleton _ _, ?_⟩
        intro a ha b hb
        rw [List.mem_singleton] at hb
        subst hb
        simpa using hfreshall a ha
      · rw [NatKeyUnique, List.pairwise_append]
        refine ⟨hKeys, List.pairwise_singleton _ _, ?_⟩
        intro a ha b hb
        rw [List.mem_singleton] at hb
        subst hb
        exact hclear a ha

/-- Deletion preserves both uniqueness invariants. -/
theorem delete_pres (s : Store) (i : Int)
    (hIds : IdsUnique s) (hKeys : NatKeyUnique s) :
    IdsUnique (delete_book s i).2 ∧ NatKeyUnique (delete_book s i).2 :=
  ⟨List.Pairwise.sublist (List.filter_sublist s) hIds,
   List.Pairwise.sublist (List.filter_sublist s) hKeys⟩

/-- Claim C1 (code bug in `_apply_updates`): forcing the delete step of an
identifier change to fail leaves the store holding BOTH the old row 3001
and the new row 3002 — `add_book` committed its insert internally, so the
rollback restores nothing — where the specified behaviour requires the new
id to be absent.  The insert-failure half behaves as specified: the store
is untouched. -/
theorem c1_replace_identifier_not_atomic :
    apply_updates [⟨3001, "A", "B", 5, 10, 0, 0⟩] 3001
      { id := some 3002 } 1 false true =
      (.updateFailedError,
        [⟨3001, "A", "B", 5, 10, 0, 0⟩, ⟨3002, "A", "B", 5, 10, 1, 1⟩]) ∧
    get_book [⟨3001, "A", "B", 5, 10, 0, 0⟩, ⟨3002, "A", "B", 5, 10, 1, 1⟩]
      3002 = some ⟨3002, "A", "B", 5, 10, 1, 1⟩ ∧
    get_book [⟨3001, "A", "B", 5, 10, 0, 0⟩, ⟨3002, "A", "B", 5, 10, 1, 1⟩]
      3001 = some ⟨3001, "A", "B", 5, 10, 0, 0⟩ ∧
    apply_updates [⟨3001, "A", "B", 5, 10, 0, 0⟩] 3001
      { id := some 3002 } 1 true false =
      (.updateFailed, [⟨3001, "A", "B", 5, 10, 0, 0⟩]) :=
  ⟨rfl, rfl, rfl, rfl⟩

/-- Claim C10: a search with no filters degenerates to the whole
inventory. -/
theorem c10_empty_search_returns_all (s : Store) : search_books s {} = s :=
  List.filter_eq_self.mpr (fun a _ => rfl)

/-- Claim C8: deleting an existing id reports True and makes the id
unfindable; deleting an absent id reports False and leaves the store
untouched. -/
theorem c8_delete_semantics (s : Store) (i : Int) :
    ((∃ b ∈ s, b.id = i) →
      (delete_book s i).1 = true ∧ get_book (delete_book s i).2 i = none) ∧
    ((∀ b ∈ s, b.id ≠ i) → delete_book s i = (false, s)) := by
  constructor
  · rintro ⟨b, hb, hbi⟩
    constructor
    · simp only [delete_book]
      rw [List.any_eq_true]
      exact ⟨b, hb, by simp [hbi]⟩
    · exact get_book_filter_ne s i
  · intro h
    have h1 : (s.any fun b => b.id == i) = false := by
      rw [List.any_eq_false]
      intro x hx
      simpa using h x hx
    have h2 : s.filter (fun b => !(b.id == i)) = s := by
      rw [List.filter_eq_self]
      intro a ha
      simpa using h a ha
    simp only [delete_book, h1, h2]

/-- Witness for C8 at a concrete one-row store: id 7 exists and is
removed; id 8 is absent and the delete is a no-op. -/
theorem c8_witness :
    ((delete_book [⟨7, "T", "A", 1, 2, 0, 0⟩] 7).1 = true ∧
      get_book (delete_book [⟨7, "T", "A", 1, 2, 0, 0⟩] 7).2 7 = none) ∧
    delete_book [⟨7, "T", "A", 1, 2, 0, 0⟩] 8 =
      (false, [⟨7, "T", "A", 1, 2, 0, 0⟩]) :=
  ⟨(c8_delete_semantics [⟨7, "T", "A", 1, 2, 0, 0⟩] 7).1 (by decide),
   (c8_delete_semantics [⟨7, "T", "A", 1, 2, 0, 0⟩] 8).2 (by decide)⟩

/-- Claim C9: the store-level field-update primitive applies whatever it
is given — negative quantity, negative price, empty title — verbatim,
reporting True whenever the row exists; no business rule is enforced at
this layer. -/
theorem c9_update_primitive_unvalidated (s : Store) (i : Int) (u : Updates)
    (t : Nat) (b : Book)
    (hb : get_book s i = some b) (hid : u.id = none) (hne : ¬ u = {}) :
    (update_book_db s i u t).1 = true ∧
    get_book (update_book_db s i u t).2 i = some
      { id := b.id, title := u.title.getD b.title,
        author := u.author.getD b.author,
        quantity := u.quantity.getD b.quantity,
        price := u.price.getD b.price,
        date_added := b.date_added, last_updated := t } := by
  constructor
  · simp only [update_book_db, if_neg hne]
    exact any_id_true_of_get s i b hb
  · rw [update_book_db_snd s i u t hne]
    exact get_book_map_update s i u t b hb

/-- Witness for C9: empty title, negative quantity and negative price are
all persisted verbatim with success reported. -/
theorem c9_witness :
    (update_book_db [⟨1, "T", "A", 5, 10, 0, 0⟩] 1
      { title := some "", quantity := some (-5), price := some (-1) } 9).1 =
      true ∧
    get_book (update_book_db [⟨1, "T", "A", 5, 10, 0, 0⟩] 1
      { title := some "", quantity := some (-5), price := some (-1) } 9).2 1 =
      some ⟨1, "", "A", -5, -1, 0, 9⟩ :=
  c9_update_primitive_unvalidated [⟨1, "T", "A", 5, 10, 0, 0⟩] 1
    { title := some "", quantity := some (-5), price := some (-1) } 9
    ⟨1, "T", "A", 5, 10, 0, 0⟩ (by decide) rfl (by decide)

/-- Claim C4: inserting a record whose case-insensitive `(title, author)`
pair is already owned by a live record with a different id fails with the
duplicate-natural-key error before anything reaches the table, regardless
of quantity and price; the store is unchanged. -/
theorem c4_duplicate_insert_rejected (s : Store) (r : Book) (idv : Nat)
    (title author : String) (qty : Nat) (price : Rat) (t : Nat)
    (hmem : r ∈ s)
    (hfree : get_book s (idv : Int) = none)
    (hpos : 0 < idv)
    (ht : py_lower (py_strip title) = py_lower r.title)
    (ha : py_lower (py_strip author) = py_lower r.author)
    (htne : ¬ py_strip title = "")
    (hane : ¬ py_strip author = "") :
    add_book_flow s idv title author qty price t = (.duplicateKey, s) := by
  have hle : ¬ ((idv : Int) ≤ 0) := by omega
  have hvid : validate_id s (idv : Int) none = none := by
    simp only [validate_id, hfree]
    rw [if_neg hle]
  have hdup : is_duplicate_title_author s (py_strip title) (py_strip author) none =
      true := by
    simp only [is_duplicate_title_author]
    rw [List.any_eq_true]
    exact ⟨r, hmem, by simp [ht, ha]⟩
  simp only [add_book_flow, hvid, if_neg htne, if_neg hane, hdup, if_true,
    ite_true]

/-- Witness for C4: a store holding `("Ab", "Cd")` rejects a fresh id 2
carrying `("AB", "cD")`. -/
theorem c4_witness :
    add_book_flow [⟨1, "Ab", "Cd", 2, 3, 0, 0⟩] 2 "AB" "cD" 0 0 7 =
      (.duplicateKey, [⟨1, "Ab", "Cd", 2, 3, 0, 0⟩]) :=
  c4_duplicate_insert_rejected [⟨1, "Ab", "Cd", 2, 3, 0, 0⟩]
    ⟨1, "Ab", "Cd", 2, 3, 0, 0⟩ 2 "AB" "cD" 0 0 7
    (by decide) (by decide) (by decide) (by decide) (by decide) (by decide)
    (by decide)

/-- Claim C7: a loop pass whose every selected field proposes the value
the record already has (the text comparisons being made on the stripped
input, which the stored values, themselves stored stripped, satisfy)
reports the no-changes signal and leaves the store — timestamps
included — identical. -/
theorem c7_no_op_update_detected (db : Store) (book : Book) (c : Choice)
    (inp : StepInputs) (t : Nat) (insF delF : Bool)
    (hbook : get_book db book.id = some book)
    (hc : ¬ c = .cx)
    (hid : sel_id c = true → inp.idIn = .value book.id)
    (htl : sel_title c = true →
      inp.titleIn = book.title ∧ py_strip book.title = book.title)
    (hau : sel_author c = true →
      inp.authorIn = book.author ∧ py_strip book.author = book.author)
    (hqt : sel_qty c = true →
      inp.qtyIn = .value book.quantity.toNat ∧
      (book.quantity.toNat : Int) = book.quantity)
    (hpr : sel_price c = true → inp.priceIn = .value book.price) :
    run_update_iteration db book c inp t insF delF = (.noChanges, db) := by
  have h1 : stage_id db book c inp = {} := by
    unfold stage_id
    by_cases hcc : sel_id c = true
    · rw [if_pos hcc, hid hcc]
      simp [handle_id_update]
    · rw [if_neg hcc]
  have h2 : stage_title db book c inp ({} : Updates) = {} := by
    unfold stage_title
    by_cases hcc : sel_title c = true
    · rw [if_pos hcc, (htl hcc).1]
      by_cases hx : py_lower book.title = "x"
      · simp [handle_title_update, hx]
      · simp [handle_title_update, hx, (htl hcc).2]
    · rw [if_neg hcc]
  have h3 : stage_author db book c inp ({} : Updates) = {} := by
    unfold stage_author
    by_cases hcc : sel_author c = true
    · rw [if_pos hcc, (hau hcc).1]
      by_cases hx : py_lower book.author = "x"
      · simp [handle_author_update, hx]
      · simp [handle_author_update, hx, (hau hcc).2]
    · rw [if_neg hcc]
  have h4 : stage_quantity book c inp ({} : Updates) = {} := by
    unfold stage_quantity
    by_cases hcc : sel_qty c = true
    · rw [if_pos hcc, (hqt hcc).1]
      simp [handle_quantity_update, (hqt hcc).2]
    · rw [if_neg hcc]
  have h5 : stage_price book c inp ({} : Updates) = {} := by
    unfold stage_price
    by_cases hcc : sel_price c = true
    · rw [if_pos hcc, hpr hcc]
      simp [handle_price_update]
    · rw [if_neg hcc]
  have hstaged : staged_updates db book c inp = {} := by
    unfold staged_updates
    rw [h1, h2, h3, h4, h5]
  have hproc : process_update_choice db book c inp = some {} := by
    simp only [process_update_choice, hstaged]
  simp [run_update_iteration, hc, hproc]

/-- Witness for C7: proposing quantity 5 for a record whose quantity is 5
yields the no-changes signal and an identical store. -/
theorem c7_witness :
    run_update_iteration [⟨1, "T", "A", 5, 10, 0, 0⟩] ⟨1, "T", "A", 5, 10, 0, 0⟩
      .c4 ⟨.cancel, "", "", .value 5, .cancel⟩ 9 false false =
      (.noChanges, [⟨1, "T", "A", 5, 10, 0, 0⟩]) :=
  c7_no_op_update_detected [⟨1, "T", "A", 5, 10, 0, 0⟩]
    ⟨1, "T", "A", 5, 10, 0, 0⟩ .c4 ⟨.cancel, "", "", .value 5, .cancel⟩ 9
    false false (by decide) (by decide) (by decide) (by decide) (by decide)
    (by decide) (by decide)

/-- Claim C2 counterexample: with records `{1,"X","Y"}` and `{2,"Z","W"}`,
a single session pass on record 2 proposing title `"X"` and author `"Y"`
does not leave the store unchanged — record 2 comes out as `{2,"Z","Y"}`
with `last_updated` refreshed, because the author edit was committed. -/
theorem c2_counterexample_store_changed :
    run_update_session
      [⟨1, "X", "Y", 7, 20, 0, 0⟩, ⟨2, "Z", "W", 9, 30, 0, 0⟩] 2
      [⟨.c6, ⟨.cancel, "X", "Y", .cancel, .cancel⟩, 1, false, false⟩] =
      [⟨1, "X", "Y", 7, 20, 0, 0⟩, ⟨2, "Z", "Y", 9, 30, 0, 1⟩] ∧
    ([⟨1, "X", "Y", 7, 20, 0, 0⟩, ⟨2, "Z", "Y", 9, 30, 0, 1⟩] : Store) ≠
      [⟨1, "X", "Y", 7, 20, 0, 0⟩, ⟨2, "Z", "W", 9, 30, 0, 0⟩] :=
  ⟨rfl, by decide⟩

/-- Claim C2 amended: in that session the title input `"X"` is swallowed
by the case-insensitive skip sentinel, so no title is staged; the author
edit to `"Y"` is then checked against the current title `"Z"`, passes, is
committed, and the session reports a successful update — no
duplicate-natural-key rejection happens and the store is changed to hold
`{2,"Z","Y"}` while record 1 stays intact. -/
theorem c2_partial_staging_commits :
    handle_title_update
      [⟨1, "X", "Y", 7, 20, 0, 0⟩, ⟨2, "Z", "W", 9, 30, 0, 0⟩]
      ⟨2, "Z", "W", 9, 30, 0, 0⟩ {} "X" = .sentinel ∧
    handle_author_update
      [⟨1, "X", "Y", 7, 20, 0, 0⟩, ⟨2, "Z", "W", 9, 30, 0, 0⟩]
      ⟨2, "Z", "W", 9, 30, 0, 0⟩ {} "Y" = .staged "Y" ∧
    run_update_iteration
      [⟨1, "X", "Y", 7, 20, 0, 0⟩, ⟨2, "Z", "W", 9, 30, 0, 0⟩]
      ⟨2, "Z", "W", 9, 30, 0, 0⟩ .c6 ⟨.cancel, "X", "Y", .cancel, .cancel⟩
      1 false false =
      (.applied .updated,
        [⟨1, "X", "Y", 7, 20, 0, 0⟩, ⟨2, "Z", "Y", 9, 30, 0, 1⟩]) ∧
    get_book [⟨1, "X", "Y", 7, 20, 0, 0⟩, ⟨2, "Z", "Y", 9, 30, 0, 1⟩] 2 =
      some ⟨2, "Z", "Y", 9, 30, 0, 1⟩ ∧
    get_book [⟨1, "X", "Y", 7, 20, 0, 0⟩, ⟨2, "Z", "Y", 9, 30, 0, 1⟩] 1 =
      some ⟨1, "X", "Y", 7, 20, 0, 0⟩ :=
  ⟨rfl, rfl, rfl, rfl, rfl⟩

/-- Claim C3 counterexample: after the successful identifier change 3001
to 3002 at commit time 1 (record inserted at time 0), the surviving row is
NOT the original record with only the id and `last_updated` renewed: its
`date_added` was re-stamped to 1 as well, because the change inserts a
fresh row. -/
theorem c3_counterexample_created_at_restamped :
    run_update_iteration [⟨3001, "A", "B", 5, 10, 0, 0⟩]
      ⟨3001, "A", "B", 5, 10, 0, 0⟩ .c1
      ⟨.value 3002, "", "", .cancel, .cancel⟩ 1 false false =
      (.applied .updated, [⟨3002, "A", "B", 5, 10, 1, 1⟩]) ∧
    get_book [⟨3002, "A", "B", 5, 10, 1, 1⟩] 3002 ≠
      some ⟨3002, "A", "B", 5, 10, 0, 1⟩ :=
  ⟨rfl, by decide⟩

/-- Claim C3 amended: an update session on the one-record store
`{3001,"A","B",5,10.0}` (inserted at time d, last updated at time u) that
edits only the id to 3002 and commits at time n succeeds: 3001 becomes
absent, 3002 holds the original title, author, quantity and price, and
BOTH timestamps — `last_updated` and `date_added` — are set to the commit
time n. -/
theorem c3_id_change_scenario (d u n : Nat) :
    run_update_iteration [⟨3001, "A", "B", 5, 10, d, u⟩]
      ⟨3001, "A", "B", 5, 10, d, u⟩ .c1
      ⟨.value 3002, "", "", .cancel, .cancel⟩ n false false =
      (.applied .updated, [⟨3002, "A", "B", 5, 10, n, n⟩]) ∧
    run_update_session [⟨3001, "A", "B", 5, 10, d, u⟩] 3001
      [⟨.c1, ⟨.value 3002, "", "", .cancel, .cancel⟩, n, false, false⟩] =
      [⟨3002, "A", "B", 5, 10, n, n⟩] ∧
    get_book [⟨3002, "A", "B", 5, 10, n, n⟩] 3001 = none ∧
    get_book [⟨3002, "A", "B", 5, 10, n, n⟩] 3002 =
      some ⟨3002, "A", "B", 5, 10, n, n⟩ :=
  ⟨rfl, rfl, rfl, rfl⟩

/-- Claim C5 counterexample: starting from a store satisfying the
natural-key invariant, an update session changing only the id, whose
delete step is forced to fail, ends with rows 3001 and 3002 both live and
both carrying the key `("a","b")` — the invariant is not preserved by
every possible session outcome. -/
theorem c5_counterexample_delete_fault :
    NatKeyUnique [⟨3001, "A", "B", 5, 10, 0, 0⟩] ∧
    run_update_session [⟨3001, "A", "B", 5, 10, 0, 0⟩] 3001
      [⟨.c1, ⟨.value 3002, "", "", .cancel, .cancel⟩, 1, false, true⟩] =
      [⟨3001, "A", "B", 5, 10, 0, 0⟩, ⟨3002, "A", "B", 5, 10, 1, 1⟩] ∧
    ¬ NatKeyUnique
      [⟨3001, "A", "B", 5, 10, 0, 0⟩, ⟨3002, "A", "B", 5, 10, 1, 1⟩] := by
  refine ⟨?_, rfl, ?_⟩
  · simp only [NatKeyUnique]
    decide
  · simp only [NatKeyUnique]
    decide

/-- Claim C5 amended: on any store with unique primary keys, the
natural-key invariant is preserved by every validated insert, every
delete, and every update session — sessions of any length, any menu
choices and any user inputs, field updates and identifier changes
included — provided the store primitives themselves do not fail (no
injected insert or delete fault); the forced-delete-failure outcome above
is the exception the code admits. -/
theorem c5_natural_key_invariant_fault_free (s : Store) (op : SysOp)
    (hIds : IdsUnique s) (hKeys : NatKeyUnique s) (hff : fault_free op) :
    IdsUnique (apply_sys_op s op) ∧ NatKeyUnique (apply_sys_op s op) := by
  cases op with
  | ins idv title author qty price t =>
    exact add_flow_pres s idv title author qty price t hIds hKeys
  | del i => exact delete_pres s i hIds hKeys
  | upd bid steps =>
    cases hb : get_book s bid with
    | none =>
      simp only [apply_sys_op, run_update_session, hb]
      exact ⟨hIds, hKeys⟩
    | some book =>
      simp only [apply_sys_op, run_update_session, hb]
      have hbook : get_book s book.id = some book := by
        rw [get_book_id s bid book hb]
        exact hb
      exact steps_pres steps s book hIds hKeys hbook hff

/-- Witness for C5 at a concrete store and operation: deleting id 1 from a
one-row store keeps the natural-key invariant. -/
theorem c5_witness :
    IdsUnique (apply_sys_op [⟨1, "T", "A", 2, 3, 0, 0⟩] (.del 1)) ∧
    NatKeyUnique (apply_sys_op [⟨1, "T", "A", 2, 3, 0, 0⟩] (.del 1)) :=
  c5_natural_key_invariant_fault_free [⟨1, "T", "A", 2, 3, 0, 0⟩] (.del 1)
    (by simp only [IdsUnique]; decide) (by simp only [NatKeyUnique]; decide)
    trivial

/-- Claim C6 counterexample: a successful identifier change (3001 becomes
3002, committed at time 1, row originally inserted at time 0) leaves the
record with `date_added` 1, not the value 0 assigned at insertion —
`created_at` does not survive an identifier change. -/
theorem c6_counterexample_id_change_restamps :
    apply_updates [⟨3001, "A", "B", 5, 10, 0, 0⟩] 3001
      { id := some 3002 } 1 false false =
      (.updated, [⟨3002, "A", "B", 5, 10, 1, 1⟩]) ∧
    (get_book [⟨3002, "A", "B", 5, 10, 1, 1⟩] 3002).map Book.date_added ≠
      some 0 :=
  ⟨rfl, by decide⟩

/-- Claim C6 amended: a successful field update refreshes `last_updated`
to the mutation time and leaves `date_added` exactly as it was; a
successful identifier change produces a surviving row whose
`last_updated` AND `date_added` are both the mutation time, since the old
row is destroyed and a freshly stamped one inserted. -/
theorem c6_timestamp_discipline :
    (∀ (s : Store) (i : Int) (u : Updates) (t : Nat) (b : Book),
      get_book s i = some b → ¬ u = {} →
      (update_book_db s i u t).1 = true ∧
      get_book (update_book_db s i u t).2 i = some (apply_fields b u t) ∧
      (apply_fields b u t).last_updated = t ∧
      (apply_fields b u t).date_added = b.date_added) ∧
    (∀ (s : Store) (bid : Int) (u : Updates) (t : Nat) (j : Int) (book : Book),
      u.id = some j → get_book s bid = some book → j ≠ bid →
      s.any (fun b => b.id == j) = false →
      ∃ nb, (apply_updates s bid u t false false).1 = .updated ∧
        get_book (apply_updates s bid u t false false).2 j = some nb ∧
        nb.last_updated = t ∧ nb.date_added = t) := by
  constructor
  · intro s i u t b hb hu
    refine ⟨?_, ?_, rfl, rfl⟩
    · simp only [update_book_db, if_neg hu]
      exact any_id_true_of_get s i b hb
    · rw [update_book_db_snd s i u t hu]
      exact get_book_map_update s i u t b hb
  · intro s bid u t j book hj hbook hne hany
    have hu : ¬ u = {} := by
      intro he
      rw [he] at hj
      simp at hj
    have hio : u.id.isSome = true := by
      rw [hj]
      rfl
    have hrowid : (new_book_of book u).id = j := by
      simp [new_book_of, hj]
    rcases add_book_cases s (new_book_of book u) t with ⟨_, hcl⟩ | ⟨hadd, _⟩
    · rw [hrowid, hany] at hcl
      simp at hcl
    · have hstore : apply_updates s bid u t false false =
          (.updated, (delete_book (s ++
            [⟨(new_book_of book u).id, (new_book_of book u).title,
              (new_book_of book u).author, (new_book_of book u).quantity,
              (new_book_of book u).price, t, t⟩]) bid).2) := by
        simp [apply_updates, hu, hio, hbook, hadd]
      refine ⟨⟨(new_book_of book u).id, (new_book_of book u).title,
        (new_book_of book u).author, (new_book_of book u).quantity,
        (new_book_of book u).price, t, t⟩, ?_, ?_, rfl, rfl⟩
      · rw [hstore]
      · rw [hstore]
        simp only [delete_book, List.filter_append]
        have hkeep : ([⟨(new_book_of book u).id, (new_book_of book u).title,
            (new_book_of book u).author, (new_book_of book u).quantity,
            (new_book_of book u).price, t, t⟩] : Store).filter
            (fun b => !(b.id == bid)) =
            [⟨(new_book_of book u).id, (new_book_of book u).title,
              (new_book_of book u).author, (new_book_of book u).quantity,
              (new_book_of book u).price, t, t⟩] := by
          simp [hrowid, hne]
        rw [hkeep]
        have hskip : ∀ b2 ∈ s.filter (fun b => !(b.id == bid)), b2.id ≠ j := by
          intro b2 hb2
          exact (any_id_false_iff s j).mp hany b2 (List.mem_of_mem_filter hb2)
        rw [get_book_append_right _ _ _ hskip]
        simp [get_book, hrowid]

/-- Witness for C6: a quantity update at time 3 keeps `date_added` 0 and
refreshes `last_updated`; an id change at time 4 stamps both fields 4. -/
theorem c6_witness :
    ((update_book_db [⟨1, "T", "A", 5, 10, 0, 0⟩] 1
        { quantity := some 6 } 3).1 = true ∧
      get_book (update_book_db [⟨1, "T", "A", 5, 10, 0, 0⟩] 1
        { quantity := some 6 } 3).2 1 =
        some (apply_fields ⟨1, "T", "A", 5, 10, 0, 0⟩ { quantity := some 6 } 3) ∧
      (apply_fields ⟨1, "T", "A", 5, 10, 0, 0⟩
        { quantity := some 6 } 3).last_updated = 3 ∧
      (apply_fields ⟨1, "T", "A", 5, 10, 0, 0⟩
        { quantity := some 6 } 3).date_added =
        (⟨1, "T", "A", 5, 10, 0, 0⟩ : Book).date_added) ∧
    (∃ nb, (apply_updates [⟨1, "T", "A", 5, 10, 0, 0⟩] 1
        { id := some 2 } 4 false false).1 = .updated ∧
      get_book (apply_updates [⟨1, "T", "A", 5, 10, 0, 0⟩] 1
        { id := some 2 } 4 false false).2 2 = some nb ∧
      nb.last_updated = 4 ∧ nb.date_added = 4) :=
  ⟨c6_timestamp_discipline.1 [⟨1, "T", "A", 5, 10, 0, 0⟩] 1
      { quantity := some 6 } 3 ⟨1, "T", "A", 5, 10, 0, 0⟩ (by decide) (by decide),
   c6_timestamp_discipline.2 [⟨1, "T", "A", 5, 10, 0, 0⟩] 1
      { id := some 2 } 4 2 ⟨1, "T", "A", 5, 10, 0, 0⟩ rfl (by decide)
      (by decide) (by decide)⟩
